import Mathlib

/-!
Verification of the schema-driven client-code generator
(`generator/src/functions.rs`) of the third-party-api-clients repository.

The file shallowly embeds `generate_files` and its helper functions
(`get_response_type`, `get_fn_params`, `get_fn_inner`, `get_fn_docs`) over a
Lean model of the `openapiv3` data types that the generator consumes.
External collaborators that live outside `functions.rs` (the `TypeSpace`
schema registry, the URL template compiler, and the name-normalization
helpers `to_snake_case`, `clean_name`, `struct_name`, `oid_to_object_name`,
`get_parameter_data`, `is_binary`) are threaded through a context record of
abstract functions, so every theorem quantifies over their behavior.

Rust `Result` + panics are modelled by a three-valued outcome type `Gen`:
`ok` for `Ok`, `err` for `bail!`/`Err`, and `died` for an `unwrap()` panic.
-/

/-- Outcome of a fallible generator step: Rust `Ok`, Rust `Err` (`bail!`),
or a panic coming from an `unwrap()` on `None`. -/
inductive Gen (α : Type) where
  | ok (a : α)
  | err (e : String)
  | died
deriving DecidableEq

def Gen.bind {α β : Type} : Gen α → (α → Gen β) → Gen β
  | .ok a, f => f a
  | .err e, _ => .err e
  | .died, _ => .died

instance : Monad Gen where
  pure := Gen.ok
  bind := Gen.bind

/-- The `?` operator on a Rust `Result`. -/
def liftE {α : Type} : Except String α → Gen α
  | .ok a => .ok a
  | .error e => .err e

/-- Rust `Option::unwrap`: panics on `None`. -/
def unwrapOpt {α : Type} : Option α → Gen α
  | some a => .ok a
  | none => .died

/-! ### String helpers mirroring the Rust standard library -/

/-- Rust `str::trim_start_matches(char)`: strips every leading occurrence of
the character. -/
def trimStartMatchesChar (s : String) (c : Char) : String :=
  ⟨s.data.dropWhile (· = c)⟩

/-- Rust `str::trim_end_matches(char)`: strips every trailing occurrence of
the character. -/
def trimEndMatchesChar (s : String) (c : Char) : String :=
  ⟨(s.data.reverse.dropWhile (· = c)).reverse⟩

/-- Fueled worker for `trimStartMatchesStr`; the fuel is an upper bound on
the number of strips, which keeps the recursion structural. -/
def dropPrefixesAux (pat : List Char) : Nat → List Char → List Char
  | 0, l => l
  | fuel + 1, l =>
    if pat ≠ [] ∧ pat.isPrefixOf l then dropPrefixesAux pat fuel (l.drop pat.length) else l

/-- Rust `str::trim_start_matches(&str)`: repeatedly strips the pattern from
the front while it is a prefix (a no-op for the empty pattern). -/
def trimStartMatchesStr (s pat : String) : String :=
  ⟨dropPrefixesAux pat.data s.data.length s.data⟩

/-- Rust `str::trim`: strips leading and trailing whitespace. -/
def trimString (s : String) : String :=
  ⟨((s.data.dropWhile Char.isWhitespace).reverse.dropWhile Char.isWhitespace).reverse⟩

/-- Rust `str::to_lowercase` (ASCII is all the generator feeds it). -/
def toLowercase (s : String) : String :=
  ⟨s.data.map Char.toLower⟩

/-! ### Ordered maps mirroring `std::collections::BTreeMap` -/

/-- Lexicographic comparison of character lists by code point, written as a
boolean so that it evaluates inside the kernel. -/
def charListLt : List Char → List Char → Bool
  | [], [] => false
  | [], _ :: _ => true
  | _ :: _, [] => false
  | a :: as, b :: bs =>
    if a.val.toNat < b.val.toNat then true
    else if b.val.toNat < a.val.toNat then false
    else charListLt as bs

/-- The lexicographic string order `BTreeMap<String, _>` keys are sorted by
(Rust's `Ord` for `String`; UTF-8 byte order coincides with code-point
order). -/
def strLt (a b : String) : Bool := charListLt a.data b.data

/-- `BTreeMap` model: an association list kept strictly sorted by key.
`mapInsert` replaces the value when the key is already present, exactly as
`BTreeMap::insert` does. -/
def mapInsert {α : Type} (k : String) (v : α) : List (String × α) → List (String × α)
  | [] => [(k, v)]
  | (k', v') :: rest =>
    if strLt k k' then (k, v) :: (k', v') :: rest
    else if k = k' then (k, v) :: rest
    else (k', v') :: mapInsert k v rest

/-- `BTreeMap::get` (also `IndexMap::get`): lookup by key. -/
def mapGet {α : Type} : List (String × α) → String → Option α
  | [], _ => none
  | (k', v') :: rest, k => if k' = k then some v' else mapGet rest k

/-- Strict lexicographic sortedness of the key list, the invariant of the
`BTreeMap` model. -/
def mapSorted {α : Type} (m : List (String × α)) : Prop :=
  m.Pairwise (fun a b => strLt a.1 b.1 = true)

/-! ### The `openapiv3` data model, restricted to the fields the generator
reads -/

abbrev TypeId := Nat

/-- A schema node; the generator never inspects its shape itself, it only
hands it to the `TypeSpace` registry, so an abstract token suffices. -/
structure Schema where
  node : Nat
deriving DecidableEq

/-- Encoding metadata on a media type; only its presence matters
(`mt.encoding.is_empty()`). -/
structure Encoding where
  tag : Nat
deriving DecidableEq

structure MediaType where
  schema : Option Schema
  encoding : List (String × Encoding)
deriving DecidableEq

inductive ReferenceOr (α : Type) where
  | reference (r : String)
  | item (a : α)
deriving DecidableEq

/-- `ReferenceOrExt::item`: returns the inline item, and fails on an
unresolved reference. -/
def refItem {α : Type} : ReferenceOr α → Except String α
  | .item a => .ok a
  | .reference r => .error ("unexpected reference: " ++ r)

structure Response where
  content : List (String × MediaType)
deriving DecidableEq

structure Responses where
  responses : List (String × ReferenceOr Response)
deriving DecidableEq

structure RequestBody where
  content : List (String × MediaType)
deriving DecidableEq

structure ParameterData where
  name : String
  description : Option String
  required : Bool
deriving DecidableEq

inductive QueryStyle where
  | form
  | spaceDelimited
  | pipeDelimited
  | deepObject
deriving DecidableEq

inductive Parameter where
  | query (parameter_data : ParameterData) (allow_reserved : Bool)
      (style : QueryStyle) (allow_empty_value : Option Bool)
  | header (parameter_data : ParameterData)
  | path (parameter_data : ParameterData)
  | cookie (parameter_data : ParameterData)
deriving DecidableEq

structure ExternalDocumentation where
  url : String
deriving DecidableEq

structure Operation where
  operation_id : Option String
  tags : List String
  summary : Option String
  description : Option String
  external_docs : Option ExternalDocumentation
  parameters : List (ReferenceOr Parameter)
  request_body : Option (ReferenceOr RequestBody)
  responses : Responses
deriving DecidableEq

structure PathItem where
  get : Option Operation
  put : Option Operation
  post : Option Operation
  delete : Option Operation
  options : Option Operation
  head : Option Operation
  patch : Option Operation
  trace : Option Operation
deriving DecidableEq

structure OpenAPI where
  paths : List (String × ReferenceOr PathItem)
deriving DecidableEq

/-- A parsed URL template; the generator treats it as an object with a
single `compile` method, so its internals stay abstract. -/
structure Template where
  raw : String
deriving DecidableEq

/-- Modelled from the spec: the external collaborators of
`generator/src/functions.rs` — the Schema Registry (`TypeSpace.select`,
`render_type`, `render_docs`, `select_param`, and the
`ParameterDataExt::render_type` extension), the URL Template Compiler
(`template::parse` / `Template::compile`), the name-normalization helpers
(`to_snake_case` from the inflector crate, `clean_name`, `struct_name`,
`oid_to_object_name`), `get_parameter_data`, and
`ExtractJsonMediaType::is_binary`. None of their code is under `src/`, so
they are kept as abstract functions over an abstract registry state `σ`;
every theorem quantifies over them. -/
structure Ctx (σ : Type) where
  toSnakeCase : String → String
  cleanName : String → String
  structName : String → String
  oidToObjectName : String → String
  select : Option String → Schema → Bool → String → σ → Except String (TypeId × σ)
  renderType : TypeId → Bool → σ → Except String (String × σ)
  renderDocs : TypeId → σ → String
  selectParam : Option String → ReferenceOr Parameter → Bool → σ → Except String (TypeId × σ)
  paramRenderType : String → ParameterData → σ → Except String (String × σ)
  getParameterData : Parameter → Option ParameterData
  isBinary : RequestBody → Except String Bool
  parseTemplate : String → Except String Template
  compileTemplate : Template → List (String × String) → String

/-! ### Shallow embedding of `generator/src/functions.rs` -/

/-- The line-appending closure `a` used throughout `functions.rs`:
`out.push_str(s); out.push('\n')`. -/
def appendLine (out s : String) : String := out ++ s ++ "\n"

/-- Parameter resolution shared by the loops of `get_fn_params`
(lines 246-259) and `get_fn_docs` (lines 392-405): an inline item is used
directly with an empty `param_name`; a reference is looked up in the shared
parameter table after stripping the `#/components/parameters/` prefix and
`struct_name` normalization, failing if absent. -/
def resolveParam {σ : Type} (ctx : Ctx σ) (parameters : List (String × Parameter)) :
    ReferenceOr Parameter → Gen (String × Parameter)
  | .reference reference =>
    let param_name := ctx.structName (reference.replace "#/components/parameters/" "")
    match mapGet parameters param_name with
    | some param => .ok (param_name, param)
    | none => .err ("could not find parameter with reference: " ++ reference)
  | .item item => .ok ("", item)

/-- One iteration of the parameter loop of `get_fn_params`
(`functions.rs` lines 246-306): renders the function-signature fragment
(with the reserved-word escape for `ref`/`type`) and, for a form-style
query parameter, inserts the serialization expression into the query
binding `BTreeMap` (after rejecting `allow_empty_value = Some(true)`). -/
def get_fn_params_step {σ : Type} (ctx : Ctx σ) (parameters : List (String × Parameter))
    (fps : List String) (qps : List (String × String)) (ts : σ)
    (par : ReferenceOr Parameter) : Gen (List String × List (String × String) × σ) := do
  let (param_name, item) ← resolveParam ctx parameters par
  let parameter_data ← unwrapOpt (ctx.getParameterData item)
  let nam := ctx.toSnakeCase parameter_data.name
  let (typ, ts₁) ← liftE (ctx.paramRenderType param_name parameter_data ts)
  let fps₁ := fps ++
    [if nam = "ref" ∨ nam = "type" then nam ++ "_: " ++ typ ++ "," else nam ++ ": " ++ typ ++ ","]
  match item with
  | .query _ _ QueryStyle.form allow_empty_value =>
    if allow_empty_value = some true then .err "allow empty value is a no go"
    else if nam = "ref" ∨ nam = "type" then .ok (fps₁, mapInsert nam (nam ++ "_") qps, ts₁)
    else
      let expr :=
        if typ = "DateTime<Utc>" then nam ++ ".to_rfc3339()"
        else if typ = "i64" ∨ typ = "bool" then "format!(\"\x7b\x7d\", " ++ nam ++ ")"
        else if typ = "&str" then nam ++ ".to_string()"
        else if typ = "&[String]" then nam ++ ".join(\" \")"
        else nam
      .ok (fps₁, mapInsert nam expr qps, ts₁)
  | _ => .ok (fps₁, qps, ts₁)

def get_fn_params_loop {σ : Type} (ctx : Ctx σ) (parameters : List (String × Parameter)) :
    List (ReferenceOr Parameter) → List String → List (String × String) → σ →
    Gen (List String × List (String × String) × σ)
  | [], fps, qps, ts => .ok (fps, qps, ts)
  | par :: rest, fps, qps, ts => do
    let (fps₁, qps₁, ts₁) ← get_fn_params_step ctx parameters fps qps ts par
    get_fn_params_loop ctx parameters rest fps₁ qps₁ ts₁

/-- `get_fn_params` (`functions.rs` lines 235-309): folds the operation's
parameter list into the signature fragments and the query binding table. -/
def get_fn_params {σ : Type} (ctx : Ctx σ) (ts : σ) (o : Operation)
    (parameters : List (String × Parameter)) :
    Gen (List String × List (String × String) × σ) :=
  get_fn_params_loop ctx parameters o.parameters [] [] ts

/-- The fall-through part of `get_response_type` (`functions.rs`
lines 210-232): examine the first declared content entry. -/
def get_response_type_rest {σ : Type} (ctx : Ctx σ) (oid : String) (ts : σ) (i : Response) :
    Gen (String × σ) := do
  let (ct, mt) ← unwrapOpt i.content.head?
  if ct = "text/plain" ∨ ct = "text/html" ∨ ct = "application/octocat-stream" ∨ ct = "*/*" then
    match mt.schema with
    | some s => do
      let (tid, ts₁) ← liftE (ctx.select none s false "" ts)
      let (rt, ts₂) ← liftE (ctx.renderType tid false ts₁)
      .ok (rt, ts₂)
    | none => .err "parsing response got to end with no type"
  else if ct = "application/scim+json" then
    if mt.encoding ≠ [] then .err "media type encoding not empty"
    else
      match mt.schema with
      | some s => do
        let object_name := ctx.oidToObjectName oid ++ " response"
        let (tid, ts₁) ← liftE (ctx.select (some (ctx.cleanName object_name)) s false "" ts)
        let (rt, ts₂) ← liftE (ctx.renderType tid false ts₁)
        .ok (rt, ts₂)
      | none => .err "parsing response got to end with no type"
  else .err "parsing response got to end with no type"

/-- `get_response_type` (`functions.rs` lines 186-233): resolve the response
type from the first response entry with the content-type precedence. -/
def get_response_type {σ : Type} (ctx : Ctx σ) (oid : String) (ts : σ) (o : Operation) :
    Gen (String × σ) := do
  let first ← unwrapOpt o.responses.responses.head?
  let i ← liftE (refItem first.2)
  if i.content = [] then .ok ("()", ts)
  else
    match mapGet i.content "application/json" with
    | some mt =>
      if mt.encoding ≠ [] then .err "media type encoding not empty"
      else
        match mt.schema with
        | some s => do
          let object_name := ctx.oidToObjectName oid ++ " response"
          let (tid, ts₁) ← liftE (ctx.select (some (ctx.cleanName object_name)) s false "" ts)
          let (rt, ts₂) ← liftE (ctx.renderType tid false ts₁)
          .ok (rt, ts₂)
        | none => get_response_type_rest ctx oid ts i
    | none => get_response_type_rest ctx oid ts i

/-- The raw string returned by `get_fn_inner` for the whitelisted
`apps_create_installation_access_token` operation. -/
def postMediaInner : String :=
  "self.client.post_media(\n            &url,\n            Some(reqwest::Body::from(serde_json::to_vec(body).unwrap())),\n            crate::utils::MediaType::Json,\n            crate::auth::AuthenticationConstraint::JWT,\n        ).await"

/-- `get_fn_inner` (`functions.rs` lines 314-353): verb dispatch for the
body of the generated function. -/
def get_fn_inner (oid m : String) (body_func : Option String) : Gen String :=
  if m = "GET" then
    .ok ("self.client." ++ toLowercase m ++ "(&url).await")
  else if (m = "POST" ∨ m = "PATCH" ∨ m = "PUT" ∨ m = "DELETE") ∧
      oid ≠ "apps_create_installation_access_token" then
    let body :=
      match body_func with
      | some f =>
        if f = "json" then "Some(reqwest::Body::from(serde_json::to_vec(body).unwrap()))"
        else "Some(body.into())"
      | none => "None"
    .ok ("self.client." ++ toLowercase m ++ "(&url, " ++ body ++ ").await")
  else if oid ≠ "apps_create_installation_access_token" then
    .err ("function " ++ oid ++ " should be authenticated")
  else
    .ok postMediaInner

/-- One iteration of the documentation parameter loop of `get_fn_docs`
(`functions.rs` lines 392-435): resolve the parameter, extract the best
documentation string, and append one `* * \`name: type\`` bullet with the
reserved-word escape for `ref`/`type`. -/
def get_fn_docs_loop {σ : Type} (ctx : Ctx σ) (parameters : List (String × Parameter)) :
    List (ReferenceOr Parameter) → String → σ → Gen (String × σ)
  | [], out, ts => .ok (out, ts)
  | par :: rest, out, ts => do
    let (param_name, item) ← resolveParam ctx parameters par
    let parameter_data ← unwrapOpt (ctx.getParameterData item)
    let (pid, ts₁) ← liftE (ctx.selectParam none par false ts)
    let docs₀ := ctx.renderDocs pid ts₁
    let docs :=
      match parameter_data.description with
      | some d =>
        if d ≠ "" ∧ docs₀.utf8ByteSize < d.utf8ByteSize then
          " -- " ++ (trimEndMatchesChar d '.').replace "\n" "\n*   " ++ "."
        else if docs₀ ≠ "" then
          " -- " ++ trimString (trimEndMatchesChar (trimStartMatchesChar docs₀ '*') '.') ++ "."
        else docs₀
      | none =>
        if docs₀ ≠ "" then
          " -- " ++ trimString (trimEndMatchesChar (trimStartMatchesChar docs₀ '*') '.') ++ "."
        else docs₀
    let nam := ctx.toSnakeCase (ctx.cleanName parameter_data.name)
    let (typ, ts₂) ← liftE (ctx.paramRenderType param_name parameter_data ts₁)
    let line :=
      if nam = "ref" ∨ nam = "type" then "* * `" ++ nam ++ "_: " ++ typ ++ "`" ++ docs
      else "* * `" ++ nam ++ ": " ++ typ ++ "`" ++ docs
    get_fn_docs_loop ctx parameters rest (appendLine out line) ts₂

/-- `get_fn_docs` (`functions.rs` lines 355-439): assemble the documentation
comment block for one operation. -/
def get_fn_docs {σ : Type} (ctx : Ctx σ) (o : Operation) (m p : String)
    (parameters : List (String × Parameter)) (ts : σ) : Gen (String × σ) := do
  let out := appendLine "" "/**"
  let out :=
    match o.summary with
    | some summary =>
      appendLine (appendLine out ("* " ++ trimEndMatchesChar summary '.' ++ ".")) "*"
    | none => out
  let out := appendLine out
    ("* This function performs a `" ++ m ++ "` to the `" ++ p ++ "` endpoint.")
  let out :=
    match o.description with
    | some description =>
      appendLine (appendLine out "*") ("* " ++ description.replace "\n" "\n* ")
    | none => out
  let out :=
    match o.external_docs with
    | some ed => appendLine (appendLine out "*") ("* FROM: <" ++ ed.url ++ ">")
    | none => out
  let out :=
    if o.parameters ≠ [] then
      appendLine (appendLine (appendLine out "*") "* **Parameters:**") "*"
    else out
  let (out, ts₁) ← get_fn_docs_loop ctx parameters o.parameters out ts
  let out := appendLine out "*/"
  .ok (trimString out, ts₁)

/-- The generated function's name (`functions.rs` line 69):
`oid.trim_start_matches(&tag).trim_start_matches('_')`. -/
def fn_name (oid tag : String) : String :=
  trimStartMatchesChar (trimStartMatchesStr oid tag) '_'

/-- The attribute emitted for the one recursive whitelisted operation
(`functions.rs` line 63). -/
def asyncRecursionAttr : String := "#[async_recursion::async_recursion]"

/-- The `print_fn` closure (`functions.rs` lines 50-96): append one complete
generated function (docs, optional recursion attribute, signature,
parameters, body parameter, return type, URL template, body, braces) to the
accumulated tag-file text `out`. -/
def print_fn (out : String) (oid tag docs : String) (bounds fn_params_str : List String)
    (body_param : Option String) (response_type template fn_inner : String) : String :=
  let out := appendLine out docs
  let out :=
    if oid = "apps_create_installation_access_token" then appendLine out asyncRecursionAttr
    else out
  let out :=
    if bounds = [] then appendLine out ("pub async fn " ++ fn_name oid tag ++ "(")
    else
      appendLine out
        ("pub async fn " ++ fn_name oid tag ++ "<" ++ String.intercalate ", " bounds ++ ">(")
  let out := appendLine out "&self,"
  let out :=
    if fn_params_str ≠ [] then appendLine out (String.intercalate " " fn_params_str) else out
  let out :=
    match body_param with
    | some bp => appendLine out ("body: " ++ bp)
    | none => out
  let out := appendLine out (") -> Result<" ++ response_type ++ "> \x7b")
  let out := appendLine out template
  let out := appendLine out fn_inner
  let out := appendLine out "\x7d"
  appendLine out ""

/-- The tail of `print_fn` after the signature-opening line (`functions.rs`
lines 78-95), named separately so the position of the function name inside
the emitted text can be reasoned about. -/
def print_fn_post (out : String) (fn_params_str : List String) (body_param : Option String)
    (response_type template fn_inner : String) : String :=
  let out := appendLine out "&self,"
  let out :=
    if fn_params_str ≠ [] then appendLine out (String.intercalate " " fn_params_str) else out
  let out :=
    match body_param with
    | some bp => appendLine out ("body: " ++ bp)
    | none => out
  let out := appendLine out (") -> Result<" ++ response_type ++ "> \x7b")
  let out := appendLine out template
  let out := appendLine out fn_inner
  let out := appendLine out "\x7d"
  appendLine out ""

/-- The request-body classification of `generate_files` (`functions.rs`
lines 102-133): returns the generic bounds, the body parameter rendering,
and the body strategy (`"body"`/`"json"`). -/
def classify_body {σ : Type} (ctx : Ctx σ) (oid : String)
    (request_body : Option (ReferenceOr RequestBody)) (ts : σ) :
    Gen (List String × Option String × Option String × σ) :=
  match request_body with
  | some b => do
    let b ← liftE (refItem b)
    let isBin ← liftE (ctx.isBinary b)
    if isBin then .ok (["B: Into<reqwest::Body>"], some "B", some "body", ts)
    else do
      let (ct, mt) ← unwrapOpt b.content.head?
      if ct = "application/json" then
        match mt.schema with
        | some s => do
          let object_name := ctx.oidToObjectName oid ++ " request"
          let (id, ts₁) ← liftE (ctx.select (some object_name) s false "" ts)
          let (rt, ts₂) ← liftE (ctx.renderType id false ts₁)
          .ok ([], some ("&" ++ rt), some "json", ts₂)
        | none => .ok ([], none, none, ts)
      else
        match mt.schema with
        | some s => do
          let (tid, ts₁) ← liftE (ctx.select none s false "" ts)
          let (rt, ts₂) ← liftE (ctx.renderType tid false ts₁)
          if rt = "String" then .ok (["T: Into<reqwest::Body>"], some "T", some "body", ts₂)
          else .ok (["T: Into<reqwest::Body>"], some rt, some "body", ts₂)
        | none => .ok ([], none, none, ts)
  | none => .ok ([], none, none, ts)

/-- The per-operation closure `gen` of `generate_files` (`functions.rs`
lines 24-171): skip an absent operation, unwrap and snake-case the
operation id, require exactly one tag, then assemble docs, body strategy,
parameters, response type, URL template, and function body, and append the
printed function to the tag's accumulated file. -/
def genOp {σ : Type} (ctx : Ctx σ) (parameters : List (String × Parameter))
    (tag_files : List (String × String)) (ts : σ)
    (p m : String) : Option Operation → Gen (List (String × String) × σ)
  | none => .ok (tag_files, ts)
  | some o => do
    let oid₀ ← unwrapOpt o.operation_id
    let oid := ctx.toSnakeCase oid₀
    if o.tags.length ≠ 1 then
      .err ("invalid number of tags for op " ++ oid ++ ": " ++ toString o.tags.length)
    else do
      let tag₀ ← unwrapOpt o.tags.head?
      let tag := ctx.toSnakeCase tag₀
      let out :=
        match mapGet tag_files tag with
        | some t₀ => t₀
        | none => ""
      let (docs, ts₁) ← get_fn_docs ctx o m p parameters ts
      let (bounds, body_param, body_func, ts₂) ← classify_body ctx oid o.request_body ts₁
      let (fn_params_str, query_params, ts₃) ← get_fn_params ctx ts₂ o parameters
      let (response_type, ts₄) ← get_response_type ctx oid ts₃ o
      let tmp ← liftE (ctx.parseTemplate p)
      let template := ctx.compileTemplate tmp query_params
      let fn_inner ← get_fn_inner oid m body_func
      let out₁ := print_fn out oid tag docs bounds fn_params_str body_param
        response_type template fn_inner
      .ok (mapInsert tag out₁ tag_files, ts₄)

/-- The eight `gen` invocations of `generate_files` (`functions.rs`
lines 173-180), in the fixed canonical verb order. -/
def gen_path_item {σ : Type} (ctx : Ctx σ) (parameters : List (String × Parameter))
    (pn : String) (op : PathItem) (tag_files : List (String × String)) (ts : σ) :
    Gen (List (String × String) × σ) := do
  let (tf₁, ts₁) ← genOp ctx parameters tag_files ts pn "GET" op.get
  let (tf₂, ts₂) ← genOp ctx parameters tf₁ ts₁ pn "PUT" op.put
  let (tf₃, ts₃) ← genOp ctx parameters tf₂ ts₂ pn "POST" op.post
  let (tf₄, ts₄) ← genOp ctx parameters tf₃ ts₃ pn "DELETE" op.delete
  let (tf₅, ts₅) ← genOp ctx parameters tf₄ ts₄ pn "OPTIONS" op.options
  let (tf₆, ts₆) ← genOp ctx parameters tf₅ ts₅ pn "HEAD" op.head
  let (tf₇, ts₇) ← genOp ctx parameters tf₆ ts₆ pn "PATCH" op.patch
  genOp ctx parameters tf₇ ts₇ pn "TRACE" op.trace

def generate_files_loop {σ : Type} (ctx : Ctx σ) (parameters : List (String × Parameter)) :
    List (String × ReferenceOr PathItem) → List (String × String) → σ →
    Gen (List (String × String) × σ)
  | [], tag_files, ts => .ok (tag_files, ts)
  | (pn, pref) :: rest, tag_files, ts => do
    let op ← liftE (refItem pref)
    let (tf, ts₁) ← gen_path_item ctx parameters pn op tag_files ts
    generate_files_loop ctx parameters rest tf ts₁

/-- `generate_files` (`functions.rs` lines 14-184): iterate every path of
the document and generate one function per (path, verb) operation, grouped
in a tag-keyed `BTreeMap` of file texts. -/
def generate_files {σ : Type} (ctx : Ctx σ) (api : OpenAPI) (ts : σ)
    (parameters : List (String × Parameter)) : Gen (List (String × String) × σ) :=
  generate_files_loop ctx parameters api.paths [] ts

/-! ### Definitions written from the claims (for refinement comparisons) -/

/-- Named response-type resolution: the registry selection used by cases 2
and 4 of the response precedence (name derived from the operation id). -/
def namedResponseSelect {σ : Type} (ctx : Ctx σ) (oid : String) (ts : σ) (s : Schema) :
    Gen (String × σ) := do
  let object_name := ctx.oidToObjectName oid ++ " response"
  let (tid, ts₁) ← liftE (ctx.select (some (ctx.cleanName object_name)) s false "" ts)
  let (rt, ts₂) ← liftE (ctx.renderType tid false ts₁)
  .ok (rt, ts₂)

/-- Anonymous response-type resolution: the registry selection used by
case 3 of the response precedence. -/
def anonResponseSelect {σ : Type} (ctx : Ctx σ) (ts : σ) (s : Schema) : Gen (String × σ) := do
  let (tid, ts₁) ← liftE (ctx.select none s false "" ts)
  let (rt, ts₂) ← liftE (ctx.renderType tid false ts₁)
  .ok (rt, ts₂)

/-- Written from Claim C2's words (cases 3-5, which examine the first
declared content entry): the tail of the first-match-wins precedence. -/
def response_type_spec_tail {σ : Type} (ctx : Ctx σ) (oid : String) (ts : σ) (r : Response) :
    Gen (String × σ) :=
  match r.content.head? with
  | some (ct, mt) =>
    match mt.schema with
    | some s =>
      if ct = "text/plain" ∨ ct = "text/html" ∨ ct = "application/octocat-stream" ∨ ct = "*/*"
      then anonResponseSelect ctx ts s
      else if ct = "application/scim+json" then namedResponseSelect ctx oid ts s
      else .err "parsing response got to end with no type"
    | none => .err "parsing response got to end with no type"
  | none => .err "parsing response got to end with no type"

/-- Written from Claim C2's words, not from the source: the five-case
first-match-wins response-type precedence over the first response entry
`r`. Case 1: no declared content. Case 2: `application/json` content with
a schema. Cases 3-5: see `response_type_spec_tail`. To be compared with
the source-derived `get_response_type`. -/
def response_type_spec {σ : Type} (ctx : Ctx σ) (oid : String) (ts : σ) (r : Response) :
    Gen (String × σ) :=
  if r.content = [] then .ok ("()", ts)
  else
    match (mapGet r.content "application/json").bind (fun mt => mt.schema) with
    | some s => namedResponseSelect ctx oid ts s
    | none => response_type_spec_tail ctx oid ts r

/-- Written from Claim C6's words, not from the source: the decision table
selecting the serialization expression of a form-style query parameter from
its resolved semantic type. To be compared with the expression
`get_fn_params` inserts into the query binding table. -/
def serialization_rule_spec (nam typ : String) : String :=
  if typ = "DateTime<Utc>" then nam ++ ".to_rfc3339()"
  else if typ = "i64" ∨ typ = "bool" then "format!(\"\x7b\x7d\", " ++ nam ++ ")"
  else if typ = "&str" then nam ++ ".to_string()"
  else if typ = "&[String]" then nam ++ ".join(\" \")"
  else nam

/-! ### Concrete instantiations used by the witnesses -/

/-- The `parameter_data` carried by every `Parameter` variant. -/
def pdOf : Parameter → ParameterData
  | .query pd _ _ _ => pd
  | .header pd => pd
  | .path pd => pd
  | .cookie pd => pd

/-- A concrete, fully executable instantiation of the external
collaborators: the identity on names, a registry whose state is `Unit` and
whose every selection renders `()`, parameters rendered at type `&str`. -/
def ctxW : Ctx Unit where
  toSnakeCase := fun s => s
  cleanName := fun s => s
  structName := fun s => s
  oidToObjectName := fun s => s
  select := fun _ _ _ _ u => .ok (0, u)
  renderType := fun _ _ u => .ok ("()", u)
  renderDocs := fun _ _ => ""
  selectParam := fun _ _ _ u => .ok (0, u)
  paramRenderType := fun _ _ u => .ok ("&str", u)
  getParameterData := fun par => some (pdOf par)
  isBinary := fun _ => .ok false
  parseTemplate := fun s => .ok ⟨s⟩
  compileTemplate := fun t qp =>
    t.raw ++ String.intercalate "&" (qp.map (fun kv => kv.1 ++ "=" ++ kv.2))

/-- `ctxW` with a parameter-data extractor that always fails (for the
panic claim about `get_parameter_data(item).unwrap()`). -/
def ctxN : Ctx Unit :=
  { ctxW with getParameterData := fun _ => none }

/-- A single-entry response map whose one response declares no content. -/
def respEmpty : Responses := ⟨[("200", .item ⟨[]⟩)]⟩

def opW : Operation :=
  ⟨some "items_list", ["items"], none, none, none, [], none, respEmpty⟩

def pathItemOf (g : Option Operation) : PathItem :=
  ⟨g, none, none, none, none, none, none, none⟩

def apiW : OpenAPI := ⟨[("/items", .item (pathItemOf (some opW)))]⟩

/-- The exact text `generate_files ctxW apiW` emits for the `items` tag. -/
def itemsText : String :=
  "/**\n* This function performs a `GET` to the `/items` endpoint.\n*/\npub async fn list(\n&self,\n) -> Result<()> \x7b\n/items\nself.client.get(&url).await\n\x7d\n\n"

/-- An operation carrying two tags (for the tag-cardinality error). -/
def opBad : Operation :=
  ⟨some "bad_op", ["a", "b"], none, none, none, [], none, respEmpty⟩

/-- An inline form-style query parameter named `n`, required, without the
allow-empty-value flag. -/
def qpItem (n : String) : ReferenceOr Parameter :=
  .item (.query ⟨n, none, true⟩ false .form none)

/-- Query parameters declared in the order `b`, `a`, `c`. -/
def opQ : Operation :=
  ⟨some "q_op", ["q"], none, none, none, [qpItem "b", qpItem "a", qpItem "c"], none, respEmpty⟩

def mtJson : MediaType := ⟨some ⟨1⟩, []⟩

def respJson : Response := ⟨[("application/json", mtJson)]⟩

/-- An operation whose only response declares `application/json` content
with a schema. -/
def opJson : Operation :=
  ⟨some "demo_op", ["demo"], none, none, none, [], none, ⟨[("200", .item respJson)]⟩⟩

/-- An operation with one ordinary form-style query parameter `q`. -/
def opSingle : Operation :=
  ⟨some "s_op", ["s"], none, none, none, [qpItem "q"], none, respEmpty⟩

/-- An operation with one form-style query parameter literally named
`type`. -/
def opReserved : Operation :=
  ⟨some "r_op", ["r"], none, none, none, [qpItem "type"], none, respEmpty⟩

/-- An operation with one form-style query parameter that sets
`allow_empty_value = Some(true)`. -/
def opAev : Operation :=
  ⟨some "a_op", ["a"], none, none, none,
    [.item (.query ⟨"q", none, true⟩ false .form (some true))], none, respEmpty⟩

def mtEnc : MediaType := ⟨none, [("e", ⟨0⟩)]⟩

/-- An operation whose first response has `application/json` content with
non-empty encoding metadata. -/
def opEncJson : Operation :=
  ⟨some "ej_op", ["ej"], none, none, none, [], none, ⟨[("200", .item ⟨[("application/json", mtEnc)]⟩)]⟩⟩

/-- An operation whose first response has `application/scim+json` content
with non-empty encoding metadata. -/
def opEncScim : Operation :=
  ⟨some "es_op", ["es"], none, none, none, [], none,
    ⟨[("200", .item ⟨[("application/scim+json", mtEnc)]⟩)]⟩⟩

/-- An operation with no `operation_id`. -/
def opNoId : Operation :=
  ⟨none, ["n"], none, none, none, [], none, respEmpty⟩

/-- An operation with an empty responses map. -/
def opNoResp : Operation :=
  ⟨some "nr_op", ["nr"], none, none, none, [], none, ⟨[]⟩⟩

/-- An operation whose non-binary request body declares no content entry. -/
def opEmptyBody : Operation :=
  ⟨some "eb_op", ["eb"], none, none, none, [], some (.item ⟨[]⟩), respEmpty⟩

/-! ### Helper lemmas -/

@[simp] theorem Gen.bind_ok {α β : Type} (a : α) (f : α → Gen β) :
    Gen.bind (.ok a) f = f a := rfl

@[simp] theorem Gen.bind_err {α β : Type} (e : String) (f : α → Gen β) :
    Gen.bind (.err e) f = .err e := rfl

@[simp] theorem Gen.bind_died {α β : Type} (f : α → Gen β) :
    Gen.bind .died f = .died := rfl

@[simp] theorem bind_eq_gen_bind {α β : Type} (x : Gen α) (f : α → Gen β) :
    x >>= f = Gen.bind x f := rfl

@[simp] theorem pure_eq_gen_ok {α : Type} (a : α) :
    (pure a : Gen α) = Gen.ok a := rfl

@[simp] theorem liftE_ok {α : Type} (a : α) : liftE (.ok a) = (.ok a : Gen α) := rfl

@[simp] theorem liftE_error {α : Type} (e : String) :
    liftE (.error e : Except String α) = (.err e : Gen α) := rfl

@[simp] theorem unwrapOpt_some {α : Type} (a : α) : unwrapOpt (some a) = (.ok a : Gen α) := rfl

@[simp] theorem unwrapOpt_none {α : Type} : unwrapOpt (none : Option α) = (.died : Gen α) := rfl

theorem mem_mapInsert {α : Type} (k : String) (v : α) (m : List (String × α))
    (x : String × α) (hx : x ∈ mapInsert k v m) : x = (k, v) ∨ x ∈ m := by
  induction m with
  | nil => simpa [mapInsert] using hx
  | cons kv rest ih =>
    obtain ⟨k', v'⟩ := kv
    unfold mapInsert at hx
    split at hx
    · rcases List.mem_cons.mp hx with h | h
      · exact Or.inl h
      · exact Or.inr h
    · split at hx
      · rcases List.mem_cons.mp hx with h | h
        · exact Or.inl h
        · exact Or.inr (List.mem_cons_of_mem _ h)
      · rcases List.mem_cons.mp hx with h | h
        · exact Or.inr (h ▸ List.mem_cons_self _ _)
        · rcases ih h with h1 | h1
          · exact Or.inl h1
          · exact Or.inr (List.mem_cons_of_mem _ h1)

theorem charListLt_trans (a : List Char) : ∀ b c, charListLt a b = true →
    charListLt b c = true → charListLt a c = true := by
  induction a with
  | nil =>
    intro b c hab hbc
    cases b with
    | nil => simp [charListLt] at hab
    | cons y ys =>
      cases c with
      | nil => simp [charListLt] at hbc
      | cons z zs => simp [charListLt]
  | cons x xs ih =>
    intro b c hab hbc
    cases b with
    | nil => simp [charListLt] at hab
    | cons y ys =>
      cases c with
      | nil => simp [charListLt] at hbc
      | cons z zs =>
        simp only [charListLt] at hab hbc ⊢
        by_cases h1 : x.val.toNat < y.val.toNat
        · by_cases h3 : y.val.toNat < z.val.toNat
          · rw [if_pos (show x.val.toNat < z.val.toNat by omega)]
          · by_cases h4 : z.val.toNat < y.val.toNat
            · rw [if_neg h3, if_pos h4] at hbc
              simp at hbc
            · rw [if_pos (show x.val.toNat < z.val.toNat by omega)]
        · by_cases h2 : y.val.toNat < x.val.toNat
          · rw [if_neg h1, if_pos h2] at hab
            simp at hab
          · rw [if_neg h1, if_neg h2] at hab
            by_cases h3 : y.val.toNat < z.val.toNat
            · rw [if_pos (show x.val.toNat < z.val.toNat by omega)]
            · by_cases h4 : z.val.toNat < y.val.toNat
              · rw [if_neg h3, if_pos h4] at hbc
                simp at hbc
              · rw [if_neg h3, if_neg h4] at hbc
                rw [if_neg (show ¬ x.val.toNat < z.val.toNat by omega),
                  if_neg (show ¬ z.val.toNat < x.val.toNat by omega)]
                exact ih ys zs hab hbc

theorem charListLt_of_not (a : List Char) : ∀ b, ¬ charListLt a b = true → a ≠ b →
    charListLt b a = true := by
  induction a with
  | nil =>
    intro b hn hne
    cases b with
    | nil => exact absurd rfl hne
    | cons y ys => exact absurd (by simp [charListLt]) hn
  | cons x xs ih =>
    intro b hn hne
    cases b with
    | nil => simp [charListLt]
    | cons y ys =>
      simp only [charListLt] at hn ⊢
      by_cases h1 : x.val.toNat < y.val.toNat
      · rw [if_pos h1] at hn
        exact absurd rfl hn
      · by_cases h2 : y.val.toNat < x.val.toNat
        · rw [if_pos h2]
        · rw [if_neg h1, if_neg h2] at hn
          have hxy : x = y := Char.ext (UInt32.toNat.inj (by omega))
          rw [if_neg h2, if_neg h1]
          exact ih ys hn (fun hh => hne (by rw [hxy, hh]))

theorem strLt_trans {a b c : String} (h1 : strLt a b = true) (h2 : strLt b c = true) :
    strLt a c = true := charListLt_trans a.data b.data c.data h1 h2

theorem strLt_of_not {a b : String} (h1 : ¬ strLt a b = true) (h2 : a ≠ b) :
    strLt b a = true := by
  apply charListLt_of_not a.data b.data h1
  intro hd
  apply h2
  cases a
  cases b
  cases hd
  rfl

theorem mapInsert_sorted {α : Type} (k : String) (v : α) (m : List (String × α))
    (hs : mapSorted m) : mapSorted (mapInsert k v m) := by
  induction m with
  | nil => simp [mapInsert, mapSorted]
  | cons kv rest ih =>
    obtain ⟨k', v'⟩ := kv
    rw [mapSorted, List.pairwise_cons] at hs
    obtain ⟨hbound, hrest⟩ := hs
    unfold mapInsert
    split
    · rename_i hlt
      rw [mapSorted, List.pairwise_cons]
      refine ⟨?_, ?_⟩
      · intro x hx
        rcases List.mem_cons.mp hx with h | h
        · exact h ▸ hlt
        · exact strLt_trans hlt (hbound x h)
      · rw [mapSorted, List.pairwise_cons] at *
        exact ⟨hbound, hrest⟩
    · split
      · rename_i hne heq
        rw [mapSorted, List.pairwise_cons]
        exact ⟨fun x hx => heq ▸ hbound x hx, hrest⟩
      · rename_i hne hne2
        rw [mapSorted, List.pairwise_cons]
        refine ⟨?_, ih hrest⟩
        intro x hx
        rcases mem_mapInsert k v rest x hx with h | h
        · subst h
          exact strLt_of_not (by simpa using hne) hne2
        · exact hbound x h

theorem mapGet_mem {α : Type} (m : List (String × α)) (k : String) (v : α)
    (h : mapGet m k = some v) : (k, v) ∈ m := by
  induction m with
  | nil => simp [mapGet] at h
  | cons kv rest ih =>
    obtain ⟨k', v'⟩ := kv
    unfold mapGet at h
    split at h
    · rename_i hk
      injection h with h
      subst hk h
      exact List.mem_cons_self _ _
    · exact List.mem_cons_of_mem _ (ih h)

theorem dropPrefixesAux_no (pat : List Char) (fuel : Nat) (l : List Char)
    (h : ¬ pat.isPrefixOf l = true) : dropPrefixesAux pat fuel l = l := by
  cases fuel with
  | zero => rfl
  | succ f => simp [dropPrefixesAux, h]

theorem dropPrefixesAux_strip (pat tail : List Char) (fuel : Nat) (hp : pat ≠ [])
    (hf : 1 ≤ fuel) :
    dropPrefixesAux pat fuel (pat ++ tail) = dropPrefixesAux pat (fuel - 1) tail := by
  cases fuel with
  | zero => omega
  | succ f =>
    have hpre : pat.isPrefixOf (pat ++ tail) = true := by
      rw [List.isPrefixOf_iff_prefix]
      exact List.prefix_append pat tail
    have hdrop : (pat ++ tail).drop pat.length = tail := List.drop_left pat tail
    simp [dropPrefixesAux, hp, hpre, hdrop]

theorem fn_name_strip (tag rest : String) (h1 : tag ≠ "") (h2 : tag.data.head? ≠ some '_')
    (h3 : rest.data.head? ≠ some '_') :
    fn_name (tag ++ "_" ++ rest) tag = rest := by
  have htagne : tag.data ≠ [] := by
    intro hh
    apply h1
    cases tag with
    | mk l => cases hh; rfl
  have hdata : (tag ++ "_" ++ rest).data = tag.data ++ ('_' :: rest.data) := by
    show (tag.data ++ ['_']) ++ rest.data = _
    rw [List.append_assoc]
    rfl
  have hnopre : ¬ tag.data.isPrefixOf ('_' :: rest.data) = true := by
    intro habs
    rw [List.isPrefixOf_iff_prefix] at habs
    obtain ⟨t2, ht⟩ := habs
    cases htag : tag.data with
    | nil => exact htagne htag
    | cons c ctail =>
      rw [htag] at ht
      injection ht with hc _
      apply h2
      rw [htag, hc]
      rfl
  unfold fn_name trimStartMatchesStr
  rw [hdata]
  rw [dropPrefixesAux_strip tag.data ('_' :: rest.data) _ htagne (by
    simp only [List.length_append, List.length_cons]
    omega)]
  rw [dropPrefixesAux_no tag.data _ _ hnopre]
  unfold trimStartMatchesChar
  show (⟨('_' :: rest.data).dropWhile (· = '_')⟩ : String) = rest
  have hstep : ('_' :: rest.data).dropWhile (· = '_') = rest.data.dropWhile (· = '_') := by
    simp [List.dropWhile_cons]
  have hdw : rest.data.dropWhile (· = '_') = rest.data := by
    cases hr : rest.data with
    | nil => rfl
    | cons c t =>
      have hc : ¬ c = '_' := by
        intro hcc
        apply h3
        rw [hr, hcc]
        rfl
      simp [List.dropWhile_cons, hc]
  rw [hstep, hdw]

/-! ### Claim theorems -/

/-- Claim C1: Determinism — for every fixed input (document, shared
parameter table, fresh registry state) and fixed collaborator behavior,
two runs of `generate_files` produce identical results: the same
tag-to-text map with byte-identical source per tag, or the same fatal
error. `generate_files` is a pure function of its inputs, so equal inputs
yield equal outputs. -/
theorem claim_C1_generate_files_deterministic {σ : Type} (ctx ctx' : Ctx σ)
    (api api' : OpenAPI) (ts ts' : σ) (ps ps' : List (String × Parameter))
    (hctx : ctx = ctx') (happ : api = api') (hts : ts = ts') (hps : ps = ps') :
    generate_files ctx api ts ps = generate_files ctx' api' ts' ps' := by
  subst hctx happ hts hps
  rfl

/-- Witness for C1: two runs on a concrete one-path document agree, and the
run evaluates to a concrete tag-to-text map. -/
theorem claim_C1_generate_files_deterministic_witness :
    generate_files ctxW apiW () [] = generate_files ctxW apiW () [] ∧
    generate_files ctxW apiW () [] = .ok ([("items", itemsText)], ()) :=
  ⟨claim_C1_generate_files_deterministic ctxW ctxW apiW apiW () () [] [] rfl rfl rfl rfl,
   rfl⟩

theorem appendLine_data (x s : String) : (appendLine x s).data = x.data ++ (s ++ "\n").data := by
  show (x.data ++ s.data) ++ "\n".data = x.data ++ (s.data ++ "\n".data)
  rw [List.append_assoc]

theorem extendR_appendLine {y z : String} (s : String) (h : ∃ t, z.data = y.data ++ t) :
    ∃ t, (appendLine z s).data = y.data ++ t := by
  obtain ⟨t, ht⟩ := h
  refine ⟨t ++ (s ++ "\n").data, ?_⟩
  rw [appendLine_data, ht, List.append_assoc]

theorem extendR_self (y : String) : ∃ t, y.data = y.data ++ t := ⟨[], by simp⟩

theorem print_fn_post_extends (y : String) (fps : List String) (bp : Option String)
    (rt tmpl inner : String) :
    ∃ t, (print_fn_post y fps bp rt tmpl inner).data = y.data ++ t := by
  unfold print_fn_post
  apply extendR_appendLine
  apply extendR_appendLine
  apply extendR_appendLine
  apply extendR_appendLine
  apply extendR_appendLine
  have base : ∃ t, (appendLine y "&self,").data = y.data ++ t :=
    extendR_appendLine _ (extendR_self y)
  have hif : ∃ t,
      (if fps ≠ [] then appendLine (appendLine y "&self,") (String.intercalate " " fps)
       else appendLine y "&self,").data = y.data ++ t := by
    by_cases hf : fps ≠ []
    · rw [if_pos hf]
      exact extendR_appendLine _ base
    · rw [if_neg hf]
      exact base
  cases bp with
  | some bpv => exact extendR_appendLine _ hif
  | none => exact hif

theorem print_fn_eq_post (out oid tag docs : String) (bounds fps : List String)
    (bp : Option String) (rt tmpl inner : String) :
    print_fn out oid tag docs bounds fps bp rt tmpl inner =
      print_fn_post
        (appendLine
          (if oid = "apps_create_installation_access_token" then
            appendLine (appendLine out docs) asyncRecursionAttr
          else appendLine out docs)
          (if bounds = [] then "pub async fn " ++ fn_name oid tag ++ "("
           else
            "pub async fn " ++ fn_name oid tag ++ "<" ++ String.intercalate ", " bounds ++ ">("))
        fps bp rt tmpl inner := by
  unfold print_fn print_fn_post
  by_cases hw : oid = "apps_create_installation_access_token" <;>
    by_cases hb : bounds = [] <;> simp [hw, hb]

/-- Claim C9: for every emitted function, its name is the (snake-cased)
operation id with the owning tag's prefix and the separating underscore
removed from the front — `fn_name` (the expression on line 69 of
`functions.rs`, used by `print_fn` for the signature) maps
`tag ++ "_" ++ rest` to `rest`; moreover the text `print_fn` emits always
contains `pub async fn ` followed by exactly that name. -/
theorem claim_C9_name_strips_owning_tag (tag rest : String)
    (h1 : tag ≠ "") (h2 : tag.data.head? ≠ some '_') (h3 : rest.data.head? ≠ some '_') :
    fn_name (tag ++ "_" ++ rest) tag = rest ∧
    (∀ out oid tg docs bounds fps bp rt tmpl inner, ∃ pre post : List Char,
      (print_fn out oid tg docs bounds fps bp rt tmpl inner).data =
        pre ++ ("pub async fn " ++ fn_name oid tg).data ++ post) := by
  refine ⟨fn_name_strip tag rest h1 h2 h3, ?_⟩
  intro out oid tg docs bounds fps bp rt tmpl inner
  rw [print_fn_eq_post]
  generalize (if oid = "apps_create_installation_access_token" then
      appendLine (appendLine out docs) asyncRecursionAttr
    else appendLine out docs) = B
  by_cases hbnd : bounds = []
  · rw [if_pos hbnd]
    obtain ⟨t, ht⟩ := print_fn_post_extends
      (appendLine B ("pub async fn " ++ fn_name oid tg ++ "(")) fps bp rt tmpl inner
    rw [ht, appendLine_data]
    exact ⟨B.data, ("(" ++ "\n").data ++ t, by simp [String.data_append, List.append_assoc]⟩
  · rw [if_neg hbnd]
    obtain ⟨t, ht⟩ := print_fn_post_extends
      (appendLine B
        ("pub async fn " ++ fn_name oid tg ++ "<" ++ String.intercalate ", " bounds ++ ">("))
      fps bp rt tmpl inner
    rw [ht, appendLine_data]
    exact ⟨B.data,
      (("<" ++ String.intercalate ", " bounds ++ ">(") ++ "\n").data ++ t,
      by simp [String.data_append, List.append_assoc]⟩

/-- Witness for C9: for the operation id `items_list` under tag `items`
the emitted name is `list`, and a concrete `print_fn` output contains
`pub async fn ` followed by that name. -/
theorem claim_C9_witness :
    fn_name ("items" ++ "_" ++ "list") "items" = "list" ∧
    ∃ pre post : List Char,
      (print_fn "" "items_list" "items" "/** d */" [] [] none "()" "/i" "x").data =
        pre ++ ("pub async fn " ++ fn_name "items_list" "items").data ++ post :=
  ⟨(claim_C9_name_strips_owning_tag "items" "list" (by decide) (by decide) (by decide)).1,
   (claim_C9_name_strips_owning_tag "items" "list" (by decide) (by decide) (by decide)).2
     "" "items_list" "items" "/** d */" [] [] none "()" "/i" "x"⟩

/-- Claim C3: an operation with zero tags or more than one tag makes
generation abort with the tag-cardinality error, and with exactly one tag
generation proceeds: whenever the per-operation step succeeds, the emitted
function text lands in the tag group keyed by the snake-cased single
tag. -/
theorem claim_C3_tag_cardinality {σ : Type} (ctx : Ctx σ)
    (parameters : List (String × Parameter)) (tag_files : List (String × String)) (ts : σ)
    (p m : String) (o : Operation) (oid₀ : String)
    (hoid : o.operation_id = some oid₀) :
    (o.tags.length ≠ 1 →
      genOp ctx parameters tag_files ts p m (some o) =
        .err ("invalid number of tags for op " ++ ctx.toSnakeCase oid₀ ++ ": " ++
          toString o.tags.length)) ∧
    (∀ t tf ts₉, o.tags = [t] →
      genOp ctx parameters tag_files ts p m (some o) = .ok (tf, ts₉) →
      ∃ txt, tf = mapInsert (ctx.toSnakeCase t) txt tag_files) := by
  constructor
  · intro hn
    simp only [genOp]
    rw [hoid]
    simp only [bind_eq_gen_bind, unwrapOpt_some, Gen.bind_ok]
    rw [if_pos hn]
  · intro t tf ts₉ htags hrun
    simp only [genOp] at hrun
    rw [hoid, htags] at hrun
    simp only [bind_eq_gen_bind, unwrapOpt_some, Gen.bind_ok] at hrun
    rw [if_neg (by simp)] at hrun
    simp only [List.head?_cons, bind_eq_gen_bind, unwrapOpt_some, Gen.bind_ok] at hrun
    cases hd : get_fn_docs ctx o m p parameters ts with
    | err e => rw [hd] at hrun; simp at hrun
    | died => rw [hd] at hrun; simp at hrun
    | ok v₁ =>
      obtain ⟨docs, ts₁⟩ := v₁
      rw [hd] at hrun
      simp only [Gen.bind_ok] at hrun
      cases hb : classify_body ctx (ctx.toSnakeCase oid₀) o.request_body ts₁ with
      | err e => rw [hb] at hrun; simp at hrun
      | died => rw [hb] at hrun; simp at hrun
      | ok v₂ =>
        obtain ⟨bounds, body_param, body_func, ts₂⟩ := v₂
        rw [hb] at hrun
        simp only [Gen.bind_ok] at hrun
        cases hp : get_fn_params ctx ts₂ o parameters with
        | err e => rw [hp] at hrun; simp at hrun
        | died => rw [hp] at hrun; simp at hrun
        | ok v₃ =>
          obtain ⟨fn_params_str, query_params, ts₃⟩ := v₃
          rw [hp] at hrun
          simp only [Gen.bind_ok] at hrun
          cases hr : get_response_type ctx (ctx.toSnakeCase oid₀) ts₃ o with
          | err e => rw [hr] at hrun; simp at hrun
          | died => rw [hr] at hrun; simp at hrun
          | ok v₄ =>
            obtain ⟨response_type, ts₄⟩ := v₄
            rw [hr] at hrun
            simp only [Gen.bind_ok] at hrun
            cases ht : ctx.parseTemplate p with
            | error e => rw [ht] at hrun; simp at hrun
            | ok tmp =>
              rw [ht] at hrun
              simp only [liftE_ok, Gen.bind_ok] at hrun
              cases hi : get_fn_inner (ctx.toSnakeCase oid₀) m body_func with
              | err e => rw [hi] at hrun; simp at hrun
              | died => rw [hi] at hrun; simp at hrun
              | ok fn_inner =>
                rw [hi] at hrun
                simp only [Gen.bind_ok] at hrun
                injection hrun with hrun
                injection hrun with h₁ h₂
                exact ⟨_, h₁.symm⟩

/-- Witness for C3: a two-tag operation aborts with the tag-cardinality
error, and a successful one-tag run inserts its text under the snake-cased
tag. -/
theorem claim_C3_witness :
    genOp ctxW [] [] () "/items" "GET" (some opBad) =
      .err ("invalid number of tags for op " ++ "bad_op" ++ ": " ++ toString 2) ∧
    ∃ txt, [("items", itemsText)] = mapInsert "items" txt [] :=
  ⟨(claim_C3_tag_cardinality ctxW [] [] () "/items" "GET" opBad "bad_op" rfl).1 (by decide),
   (claim_C3_tag_cardinality ctxW [] [] () "/items" "GET" opW "items_list" rfl).2
     "items" [("items", itemsText)] () rfl rfl⟩

theorem get_fn_params_step_qps {σ : Type} (ctx : Ctx σ) (parameters : List (String × Parameter))
    (fps : List String) (qps : List (String × String)) (ts : σ) (par : ReferenceOr Parameter)
    (fps₁ : List String) (qps₁ : List (String × String)) (ts₁ : σ)
    (h : get_fn_params_step ctx parameters fps qps ts par = .ok (fps₁, qps₁, ts₁)) :
    qps₁ = qps ∨ ∃ n e, qps₁ = mapInsert n e qps := by
  unfold get_fn_params_step at h
  cases hr : resolveParam ctx parameters par with
  | err e => rw [hr] at h; simp at h
  | died => rw [hr] at h; simp at h
  | ok pr =>
    obtain ⟨param_name, item⟩ := pr
    rw [hr] at h
    simp only [bind_eq_gen_bind, Gen.bind_ok] at h
    cases hg : ctx.getParameterData item with
    | none => rw [hg] at h; simp at h
    | some pd =>
      rw [hg] at h
      simp only [unwrapOpt_some, Gen.bind_ok] at h
      cases hrt : ctx.paramRenderType param_name pd ts with
      | error e => rw [hrt] at h; simp at h
      | ok v =>
        obtain ⟨typ, ts₂⟩ := v
        rw [hrt] at h
        simp only [liftE_ok, Gen.bind_ok] at h
        split at h
        · split at h
          · simp at h
          · split at h
            · simp only [Gen.ok.injEq, Prod.mk.injEq] at h
              exact Or.inr ⟨_, _, h.2.1.symm⟩
            · simp only [Gen.ok.injEq, Prod.mk.injEq] at h
              exact Or.inr ⟨_, _, h.2.1.symm⟩
        · simp only [Gen.ok.injEq, Prod.mk.injEq] at h
          exact Or.inl h.2.1.symm

theorem get_fn_params_loop_sorted {σ : Type} (ctx : Ctx σ)
    (parameters : List (String × Parameter)) (l : List (ReferenceOr Parameter)) :
    ∀ fps qps ts fps₁ qps₁ ts₁, mapSorted qps →
      get_fn_params_loop ctx parameters l fps qps ts = .ok (fps₁, qps₁, ts₁) →
      mapSorted qps₁ := by
  induction l with
  | nil =>
    intro fps qps ts fps₁ qps₁ ts₁ hs h
    unfold get_fn_params_loop at h
    simp only [Gen.ok.injEq, Prod.mk.injEq] at h
    exact h.2.1 ▸ hs
  | cons par rest ih =>
    intro fps qps ts fps₁ qps₁ ts₁ hs h
    unfold get_fn_params_loop at h
    cases hstep : get_fn_params_step ctx parameters fps qps ts par with
    | err e => rw [hstep] at h; simp at h
    | died => rw [hstep] at h; simp at h
    | ok v =>
      obtain ⟨fps₂, qps₂, ts₂⟩ := v
      rw [hstep] at h
      simp only [bind_eq_gen_bind, Gen.bind_ok] at h
      have hs₂ : mapSorted qps₂ := by
        rcases get_fn_params_step_qps ctx parameters fps qps ts par fps₂ qps₂ ts₂ hstep with
          hq | ⟨n, e, hq⟩
        · exact hq ▸ hs
        · exact hq ▸ mapInsert_sorted n e qps hs
      exact ih fps₂ qps₂ ts₂ fps₁ qps₁ ts₁ hs₂ h

/-- Claim C4: the query-parameter binding table handed to the URL template
compiler is ordered lexicographically by snake-cased parameter name
(strictly sorted keys), regardless of declaration order. -/
theorem claim_C4_query_bindings_sorted {σ : Type} (ctx : Ctx σ) (ts : σ) (o : Operation)
    (parameters : List (String × Parameter)) (fps : List String)
    (qps : List (String × String)) (ts₁ : σ)
    (h : get_fn_params ctx ts o parameters = .ok (fps, qps, ts₁)) :
    mapSorted qps := by
  unfold get_fn_params at h
  exact get_fn_params_loop_sorted ctx parameters o.parameters [] [] ts fps qps ts₁
    (by simp [mapSorted]) h

/-- Witness for C4: query parameters declared in the order `b`, `a`, `c`
come out of `get_fn_params` as `a`, `b`, `c`, and the theorem certifies the
ordering. -/
theorem claim_C4_witness :
    get_fn_params ctxW () opQ [] =
      .ok (["b: &str,", "a: &str,", "c: &str,"],
        [("a", "a.to_string()"), ("b", "b.to_string()"), ("c", "c.to_string()")], ()) ∧
    mapSorted [("a", "a.to_string()"), ("b", "b.to_string()"), ("c", "c.to_string()")] :=
  ⟨by decide,
   claim_C4_query_bindings_sorted ctxW () opQ []
     ["b: &str,", "a: &str,", "c: &str,"]
     [("a", "a.to_string()"), ("b", "b.to_string()"), ("c", "c.to_string()")] () (by decide)⟩

/-- Claim C5: the body-dispatch step of the generated function maps verb to
call shape — GET issues a body-less fetch; POST, PUT, PATCH and DELETE
attach the body (serialized JSON, raw bytes, or `None` when absent); any
other combination is the fatal authentication error, except the single
whitelisted operation id `apps_create_installation_access_token`, which
instead emits the JWT-authenticated media post and is the only function
`print_fn` annotates with the recursion attribute. -/
theorem claim_C5_verb_dispatch (oid m : String) (body_func : Option String) :
    (m = "GET" → get_fn_inner oid m body_func = .ok "self.client.get(&url).await") ∧
    ((m = "POST" ∨ m = "PATCH" ∨ m = "PUT" ∨ m = "DELETE") →
      oid ≠ "apps_create_installation_access_token" →
      get_fn_inner oid m body_func =
        .ok ("self.client." ++ toLowercase m ++ "(&url, " ++
          (match body_func with
           | some f =>
             if f = "json" then "Some(reqwest::Body::from(serde_json::to_vec(body).unwrap()))"
             else "Some(body.into())"
           | none => "None") ++ ").await")) ∧
    (m ≠ "GET" → ¬(m = "POST" ∨ m = "PATCH" ∨ m = "PUT" ∨ m = "DELETE") →
      oid ≠ "apps_create_installation_access_token" →
      get_fn_inner oid m body_func = .err ("function " ++ oid ++ " should be authenticated")) ∧
    (m ≠ "GET" → oid = "apps_create_installation_access_token" →
      get_fn_inner oid m body_func = .ok postMediaInner) ∧
    (∀ out tag docs bounds fps bp rt tmpl inner, ∃ tail₀ : List Char,
      (print_fn out oid tag docs bounds fps bp rt tmpl inner).data =
        (appendLine out docs).data ++
        (if oid = "apps_create_installation_access_token"
         then (asyncRecursionAttr ++ "\n").data else []) ++ tail₀) := by
  refine ⟨?_, ?_, ?_, ?_, ?_⟩
  · intro hm
    subst hm
    rfl
  · intro hm hoid
    have hget : m ≠ "GET" := by
      rcases hm with h | h | h | h <;> subst h <;> decide
    unfold get_fn_inner
    rw [if_neg hget, if_pos ⟨hm, hoid⟩]
  · intro hget hmut hoid
    unfold get_fn_inner
    rw [if_neg hget, if_neg (fun hc => hmut hc.1), if_pos hoid]
  · intro hget hoid
    unfold get_fn_inner
    rw [if_neg hget, if_neg (fun hc => hc.2 hoid), if_neg (fun hc => hc hoid)]
  · intro out tag docs bounds fps bp rt tmpl inner
    rw [print_fn_eq_post]
    by_cases hw : oid = "apps_create_installation_access_token"
    · rw [if_pos hw]
      obtain ⟨t, ht⟩ := print_fn_post_extends
        (appendLine (appendLine (appendLine out docs) asyncRecursionAttr)
          (if bounds = [] then "pub async fn " ++ fn_name oid tag ++ "("
           else
            "pub async fn " ++ fn_name oid tag ++ "<" ++ String.intercalate ", " bounds ++ ">("))
        fps bp rt tmpl inner
      rw [ht, if_pos hw, appendLine_data, appendLine_data]
      refine ⟨((if bounds = [] then "pub async fn " ++ fn_name oid tag ++ "("
        else "pub async fn " ++ fn_name oid tag ++ "<" ++
          String.intercalate ", " bounds ++ ">(") ++ "\n").data ++ t, ?_⟩
      simp [String.data_append, List.append_assoc]
    · rw [if_neg hw]
      obtain ⟨t, ht⟩ := print_fn_post_extends
        (appendLine (appendLine out docs)
          (if bounds = [] then "pub async fn " ++ fn_name oid tag ++ "("
           else
            "pub async fn " ++ fn_name oid tag ++ "<" ++ String.intercalate ", " bounds ++ ">("))
        fps bp rt tmpl inner
      rw [ht, if_neg hw, appendLine_data]
      refine ⟨((if bounds = [] then "pub async fn " ++ fn_name oid tag ++ "("
        else "pub async fn " ++ fn_name oid tag ++ "<" ++
          String.intercalate ", " bounds ++ ">(") ++ "\n").data ++ t, ?_⟩
      simp [String.data_append, List.append_assoc]

/-- Witness for C5: each verb-dispatch case at a concrete input, plus the
recursion attribute appearing for the whitelisted operation. -/
theorem claim_C5_witness :
    get_fn_inner "users_list" "GET" none = .ok "self.client.get(&url).await" ∧
    get_fn_inner "users_create" "POST" (some "json") =
      .ok "self.client.post(&url, Some(reqwest::Body::from(serde_json::to_vec(body).unwrap()))).await" ∧
    get_fn_inner "users_opt" "OPTIONS" none =
      .err ("function " ++ "users_opt" ++ " should be authenticated") ∧
    get_fn_inner "apps_create_installation_access_token" "POST" (some "json") = .ok postMediaInner ∧
    ∃ tail₀ : List Char,
      (print_fn "" "apps_create_installation_access_token" "apps" "/** d */" [] [] none "()" "/t"
        "x").data =
        (appendLine "" "/** d */").data ++ (asyncRecursionAttr ++ "\n").data ++ tail₀ := by
  refine ⟨?_, ?_, ?_, ?_, ?_⟩
  · exact (claim_C5_verb_dispatch "users_list" "GET" none).1 rfl
  · exact (claim_C5_verb_dispatch "users_create" "POST" (some "json")).2.1
      (Or.inl rfl) (by decide)
  · exact (claim_C5_verb_dispatch "users_opt" "OPTIONS" none).2.2.1 (by decide)
      (by simp) (by decide)
  · exact (claim_C5_verb_dispatch "apps_create_installation_access_token" "POST"
      (some "json")).2.2.2.1 (by decide) rfl
  · have h := (claim_C5_verb_dispatch "apps_create_installation_access_token" "POST"
      (some "json")).2.2.2.2 "" "apps" "/** d */" [] [] none "()" "/t" "x"
    simpa using h

/-- Claim C6: for a form-style query parameter admitted into the query
binding table (flag not set, name not reserved), the serialization
expression is chosen by the decision table on the resolved semantic type:
`DateTime<Utc>` → RFC 3339 conversion, `i64`/`bool` → display-formatted
string, `&str` → pass-through string, `&[String]` → space-joined, anything
else verbatim — `get_fn_params` inserts exactly
`serialization_rule_spec nam typ`. -/
theorem claim_C6_serialization_table {σ : Type} (ctx : Ctx σ) (ts ts₁ : σ)
    (pd : ParameterData) (ar : Bool) (aev : Option Bool) (o : Operation)
    (parameters : List (String × Parameter)) (typ : String)
    (hps : o.parameters = [.item (.query pd ar .form aev)])
    (haev : aev ≠ some true)
    (hnam : ¬(ctx.toSnakeCase pd.name = "ref" ∨ ctx.toSnakeCase pd.name = "type"))
    (hgd : ctx.getParameterData (.query pd ar .form aev) = some pd)
    (hrt : ctx.paramRenderType "" pd ts = .ok (typ, ts₁)) :
    get_fn_params ctx ts o parameters =
      .ok ([ctx.toSnakeCase pd.name ++ ": " ++ typ ++ ","],
        [(ctx.toSnakeCase pd.name, serialization_rule_spec (ctx.toSnakeCase pd.name) typ)],
        ts₁) := by
  unfold get_fn_params
  rw [hps]
  simp only [get_fn_params_loop, get_fn_params_step, resolveParam, bind_eq_gen_bind, Gen.bind_ok]
  rw [hgd]
  simp only [unwrapOpt_some, Gen.bind_ok]
  rw [hrt]
  simp only [liftE_ok, Gen.bind_ok]
  simp [haev, hnam, mapInsert, serialization_rule_spec, get_fn_params_loop]

/-- Witness for C6: a plain string-typed query parameter `q` serializes via
`.to_string()`. -/
theorem claim_C6_witness :
    get_fn_params ctxW () opSingle [] =
      .ok (["q: &str,"], [("q", serialization_rule_spec "q" "&str")], ()) ∧
    serialization_rule_spec "q" "&str" = "q.to_string()" :=
  ⟨claim_C6_serialization_table ctxW () () ⟨"q", none, true⟩ false none opSingle [] "&str"
     rfl (by decide) (by decide) rfl rfl, by decide⟩

/-- Claim C7: a parameter whose snake-cased name is a reserved keyword
(`type` or `ref`) gets the trailing-underscore escape applied consistently
everywhere it is referenced: the generated signature fragment reads
`nam_: typ,`, the query binding table maps `nam` to the expression `nam_`,
and the documentation bullet reads ``* * `nam_: typ` ``. -/
theorem claim_C7_reserved_word_escape {σ : Type} (ctx : Ctx σ) (ts ts₁ ts₂ ts₃ : σ)
    (pd : ParameterData) (ar : Bool) (aev : Option Bool) (o : Operation) (m p : String)
    (parameters : List (String × Parameter)) (nam typ : String) (pid : TypeId)
    (hps : o.parameters = [.item (.query pd ar .form aev)])
    (hres : nam = "ref" ∨ nam = "type")
    (hnam : ctx.toSnakeCase pd.name = nam)
    (hclean : ctx.toSnakeCase (ctx.cleanName pd.name) = nam)
    (haev : aev ≠ some true)
    (hgd : ctx.getParameterData (.query pd ar .form aev) = some pd)
    (hrt : ctx.paramRenderType "" pd ts = .ok (typ, ts₁))
    (hsum : o.summary = none) (hdesc : o.description = none) (hext : o.external_docs = none)
    (hpdesc : pd.description = none)
    (hsel : ctx.selectParam none (.item (.query pd ar .form aev)) false ts = .ok (pid, ts₂))
    (hdocs : ctx.renderDocs pid ts₂ = "")
    (hrt₂ : ctx.paramRenderType "" pd ts₂ = .ok (typ, ts₃)) :
    get_fn_params ctx ts o parameters =
      .ok ([nam ++ "_: " ++ typ ++ ","], [(nam, nam ++ "_")], ts₁) ∧
    get_fn_docs ctx o m p parameters ts =
      .ok (trimString
        ("/**\n" ++ ("* This function performs a `" ++ (m ++ ("` to the `" ++ (p ++
          ("` endpoint.\n*\n* **Parameters:**\n*\n" ++ ("* * `" ++ (nam ++ ("_: " ++ (typ ++
          "`\n*/\n")))))))))), ts₃) := by
  constructor
  · unfold get_fn_params
    rw [hps]
    simp only [get_fn_params_loop, get_fn_params_step, resolveParam, bind_eq_gen_bind,
      Gen.bind_ok]
    rw [hgd]
    simp only [unwrapOpt_some, Gen.bind_ok]
    rw [hrt]
    simp only [liftE_ok, Gen.bind_ok]
    rw [hnam]
    simp [haev, hres, mapInsert, get_fn_params_loop]
  · unfold get_fn_docs
    rw [hps, hsum, hdesc, hext]
    simp only [get_fn_docs_loop, resolveParam, bind_eq_gen_bind, Gen.bind_ok]
    rw [hgd]
    simp only [unwrapOpt_some, Gen.bind_ok]
    rw [hsel]
    simp only [liftE_ok, Gen.bind_ok]
    rw [hdocs, hpdesc, hclean]
    rw [hrt₂]
    simp only [liftE_ok, Gen.bind_ok]
    simp [hres, appendLine, String.append_assoc, String.append_empty, String.empty_append,
      get_fn_docs_loop]

/-- Witness for C7: a form-style query parameter literally named `type`
comes out as `type_` in the signature fragment, the query binding and the
doc bullet. -/
theorem claim_C7_witness :
    get_fn_params ctxW () opReserved [] =
      .ok (["type_: &str,"], [("type", "type" ++ "_")], ()) ∧
    get_fn_docs ctxW opReserved "GET" "/r" [] () =
      .ok (trimString
        ("/**\n" ++ ("* This function performs a `" ++ ("GET" ++ ("` to the `" ++ ("/r" ++
          ("` endpoint.\n*\n* **Parameters:**\n*\n" ++ ("* * `" ++ ("type" ++ ("_: " ++ ("&str" ++
          "`\n*/\n")))))))))), ()) :=
  claim_C7_reserved_word_escape ctxW () () () () ⟨"type", none, true⟩ false none opReserved
    "GET" "/r" [] "type" "&str" 0 rfl (Or.inr rfl) rfl rfl (by decide) rfl rfl rfl rfl rfl
    rfl rfl rfl rfl

theorem get_response_type_rest_spec {σ : Type} (ctx : Ctx σ) (oid : String) (ts : σ)
    (r : Response) (hne : r.content ≠ [])
    (henc : ∀ ct mt, (ct, mt) ∈ r.content → mt.encoding = []) :
    get_response_type_rest ctx oid ts r = response_type_spec_tail ctx oid ts r := by
  unfold get_response_type_rest response_type_spec_tail
  cases hc : r.content with
  | nil => exact absurd hc hne
  | cons hd tl =>
    obtain ⟨ct, mt⟩ := hd
    have hE : mt.encoding = [] := henc ct mt (hc ▸ List.mem_cons_self _ _)
    simp only [List.head?_cons, unwrapOpt_some, bind_eq_gen_bind, Gen.bind_ok]
    by_cases hct : ct = "text/plain" ∨ ct = "text/html" ∨ ct = "application/octocat-stream" ∨
        ct = "*/*"
    · cases hs : mt.schema <;> simp [hct, anonResponseSelect]
    · by_cases hscim : ct = "application/scim+json"
      · cases hs : mt.schema <;> simp [hct, hscim, hE, namedResponseSelect]
      · cases hs : mt.schema <;> simp [hct, hscim]

/-- Claim C2: for every operation whose first response entry is inline, and
whose content entries carry no encoding metadata (the encoding rejection is
Claim C8), the response type is resolved by the first-match-wins precedence
of the claim: (1) no declared content ⇒ the unit type; (2) `application/json`
content with a schema ⇒ a named response type derived from the operation id
via the registry; (3) a first content entry of `text/plain`, `text/html`,
`application/octocat-stream` or `*/*` with a schema ⇒ an anonymous type from
that schema; (4) a first content entry of `application/scim+json` with a
schema ⇒ a named type as in case 2; (5) otherwise the fatal error.
`response_type_spec` is written from the claim; the theorem proves the
source-derived `get_response_type` equal to it. -/
theorem claim_C2_response_precedence {σ : Type} (ctx : Ctx σ) (oid : String) (ts : σ)
    (o : Operation) (st : String) (r : Response)
    (hfirst : o.responses.responses.head? = some (st, .item r))
    (henc : ∀ ct mt, (ct, mt) ∈ r.content → mt.encoding = []) :
    get_response_type ctx oid ts o = response_type_spec ctx oid ts r := by
  unfold get_response_type response_type_spec
  rw [hfirst]
  simp only [unwrapOpt_some, bind_eq_gen_bind, Gen.bind_ok, refItem, liftE_ok]
  by_cases hcE : r.content = []
  · rw [if_pos hcE, if_pos hcE]
  · rw [if_neg hcE, if_neg hcE]
    cases hj : mapGet r.content "application/json" with
    | some mt =>
      have hE : mt.encoding = [] := henc "application/json" mt (mapGet_mem _ _ _ hj)
      show (if mt.encoding ≠ [] then Gen.err "media type encoding not empty"
          else match mt.schema with
            | some s => namedResponseSelect ctx oid ts s
            | none => get_response_type_rest ctx oid ts r) =
        (match mt.schema with
          | some s => namedResponseSelect ctx oid ts s
          | none => response_type_spec_tail ctx oid ts r)
      rw [if_neg (by simp [hE])]
      cases hs : mt.schema with
      | some s => rfl
      | none => exact get_response_type_rest_spec ctx oid ts r hcE henc
    | none => exact get_response_type_rest_spec ctx oid ts r hcE henc

/-- Witness for C2: an operation whose only response declares
`application/json` with a schema resolves through case 2, and the run
evaluates concretely. -/
theorem claim_C2_witness :
    get_response_type ctxW "demo_op" () opJson = response_type_spec ctxW "demo_op" () respJson ∧
    get_response_type ctxW "demo_op" () opJson = .ok ("()", ()) :=
  ⟨claim_C2_response_precedence ctxW "demo_op" () opJson "200" respJson rfl
    (by
      intro ct mt h
      have h₂ : (ct, mt) ∈ [("application/json", mtJson)] := h
      rw [List.mem_singleton] at h₂
      rw [show mt = mtJson from congrArg Prod.snd h₂]
      rfl),
   rfl⟩

/-- Claim C8: generation aborts with the unsupported-semantics errors —
a form-style query parameter with `allow_empty_value = Some(true)` is
rejected by `get_fn_params`, and a response whose `application/json` entry
(or whose first entry, `application/scim+json`) carries non-empty encoding
metadata is rejected by `get_response_type`; a form-style query parameter
whose flag is absent or `false` is not rejected and participates in the
query binding table. -/
theorem claim_C8_unsupported_semantics {σ : Type} (ctx : Ctx σ) :
    (∀ ts (o : Operation) parameters pd ar (typ : String) ts₁,
      o.parameters = [.item (.query pd ar .form (some true))] →
      ctx.getParameterData (.query pd ar .form (some true)) = some pd →
      ctx.paramRenderType "" pd ts = .ok (typ, ts₁) →
      get_fn_params ctx ts o parameters = .err "allow empty value is a no go") ∧
    (∀ ts (o : Operation) parameters pd ar aev (typ : String) ts₁,
      aev ≠ some true →
      o.parameters = [.item (.query pd ar .form aev)] →
      ctx.getParameterData (.query pd ar .form aev) = some pd →
      ctx.paramRenderType "" pd ts = .ok (typ, ts₁) →
      ∃ fps expr, get_fn_params ctx ts o parameters =
        .ok (fps, [(ctx.toSnakeCase pd.name, expr)], ts₁)) ∧
    (∀ oid ts (o : Operation) st (r : Response) mt,
      o.responses.responses.head? = some (st, .item r) →
      r.content ≠ [] →
      mapGet r.content "application/json" = some mt →
      mt.encoding ≠ [] →
      get_response_type ctx oid ts o = .err "media type encoding not empty") ∧
    (∀ oid ts (o : Operation) st (r : Response) mt tl,
      o.responses.responses.head? = some (st, .item r) →
      r.content = ("application/scim+json", mt) :: tl →
      mapGet r.content "application/json" = none →
      mt.encoding ≠ [] →
      get_response_type ctx oid ts o = .err "media type encoding not empty") := by
  refine ⟨?_, ?_, ?_, ?_⟩
  · intro ts o parameters pd ar typ ts₁ hps hgd hrt
    unfold get_fn_params
    rw [hps]
    simp only [get_fn_params_loop, get_fn_params_step, resolveParam, bind_eq_gen_bind,
      Gen.bind_ok]
    rw [hgd]
    simp only [unwrapOpt_some, Gen.bind_ok]
    rw [hrt]
    simp
  · intro ts o parameters pd ar aev typ ts₁ haev hps hgd hrt
    unfold get_fn_params
    rw [hps]
    simp only [get_fn_params_loop, get_fn_params_step, resolveParam, bind_eq_gen_bind,
      Gen.bind_ok]
    rw [hgd]
    simp only [unwrapOpt_some, Gen.bind_ok]
    rw [hrt]
    by_cases hres : ctx.toSnakeCase pd.name = "ref" ∨ ctx.toSnakeCase pd.name = "type"
    · exact ⟨[ctx.toSnakeCase pd.name ++ "_: " ++ typ ++ ","], ctx.toSnakeCase pd.name ++ "_",
        by simp [haev, hres, mapInsert, get_fn_params_loop]⟩
    · exact ⟨[ctx.toSnakeCase pd.name ++ ": " ++ typ ++ ","],
        serialization_rule_spec (ctx.toSnakeCase pd.name) typ,
        by simp [haev, hres, mapInsert, get_fn_params_loop, serialization_rule_spec]⟩
  · intro oid ts o st r mt hfirst hne hj hmt
    unfold get_response_type
    rw [hfirst]
    simp only [unwrapOpt_some, bind_eq_gen_bind, Gen.bind_ok, refItem, liftE_ok]
    rw [if_neg hne]
    simp [hj, hmt]
  · intro oid ts o st r mt tl hfirst hc hj hmt
    unfold get_response_type
    rw [hfirst]
    simp only [unwrapOpt_some, bind_eq_gen_bind, Gen.bind_ok, refItem, liftE_ok]
    rw [if_neg (by simp [hc])]
    have hj₂ : mapGet (("application/scim+json", mt) :: tl) "application/json" = none :=
      hc ▸ hj
    simp [hj₂, get_response_type_rest, hc, hmt]

/-- Witness for C8: the allow-empty-value rejection, the participation of a
flag-less parameter, and both encoding rejections at concrete inputs. -/
theorem claim_C8_witness :
    get_fn_params ctxW () opAev [] = .err "allow empty value is a no go" ∧
    (∃ fps expr, get_fn_params ctxW () opSingle [] = .ok (fps, [("q", expr)], ())) ∧
    get_response_type ctxW "ej_op" () opEncJson = .err "media type encoding not empty" ∧
    get_response_type ctxW "es_op" () opEncScim = .err "media type encoding not empty" := by
  refine ⟨?_, ?_, ?_, ?_⟩
  · exact (claim_C8_unsupported_semantics ctxW).1 () opAev [] ⟨"q", none, true⟩ false "&str" ()
      rfl rfl rfl
  · exact (claim_C8_unsupported_semantics ctxW).2.1 () opSingle [] ⟨"q", none, true⟩ false none
      "&str" () (by decide) rfl rfl rfl
  · exact (claim_C8_unsupported_semantics ctxW).2.2.1 "ej_op" () opEncJson "200"
      ⟨[("application/json", mtEnc)]⟩ mtEnc rfl (by decide) rfl (by decide)
  · exact (claim_C8_unsupported_semantics ctxW).2.2.2 "es_op" () opEncScim "200"
      ⟨[("application/scim+json", mtEnc)]⟩ mtEnc [] rfl rfl rfl (by decide)

/-- Claim C10: `generate_files` returns a structured error only under
well-formedness assumptions it never checks — the per-operation step panics
(`unwrap()` on `None`, modelled as `.died`) rather than erroring when the
operation has no `operation_id`, when its responses map is empty, when a
non-binary request body declares no content entry, and when a parameter
item yields no parameter data. -/
theorem claim_C10_unwrap_panics {σ : Type} (ctx : Ctx σ) :
    (∀ parameters tag_files ts p m (o : Operation),
      o.operation_id = none →
      genOp ctx parameters tag_files ts p m (some o) = .died) ∧
    (∀ oid ts (o : Operation),
      o.responses.responses = [] →
      get_response_type ctx oid ts o = .died) ∧
    (∀ parameters tag_files ts p m (o : Operation) oid₀ t docs ts₁ (b : RequestBody),
      o.operation_id = some oid₀ → o.tags = [t] →
      get_fn_docs ctx o m p parameters ts = .ok (docs, ts₁) →
      o.request_body = some (.item b) →
      ctx.isBinary b = .ok false →
      b.content = [] →
      genOp ctx parameters tag_files ts p m (some o) = .died) ∧
    (∀ ts (o : Operation) parameters (item : Parameter),
      o.parameters = [.item item] →
      ctx.getParameterData item = none →
      get_fn_params ctx ts o parameters = .died) := by
  refine ⟨?_, ?_, ?_, ?_⟩
  · intro parameters tag_files ts p m o hoid
    simp only [genOp]
    rw [hoid]
    simp
  · intro oid ts o hresp
    unfold get_response_type
    rw [hresp]
    simp
  · intro parameters tag_files ts p m o oid₀ t docs ts₁ b hoid htags hd hrb hbin hbc
    simp only [genOp]
    rw [hoid, htags]
    simp only [bind_eq_gen_bind, unwrapOpt_some, Gen.bind_ok]
    rw [if_neg (by simp)]
    simp only [List.head?_cons, unwrapOpt_some, Gen.bind_ok]
    rw [hd]
    simp only [Gen.bind_ok]
    unfold classify_body
    rw [hrb]
    simp [refItem, hbin, hbc]
  · intro ts o parameters item hps hgd
    unfold get_fn_params
    rw [hps]
    simp only [get_fn_params_loop, get_fn_params_step, resolveParam, bind_eq_gen_bind,
      Gen.bind_ok]
    rw [hgd]
    simp

/-- Witness for C10: each of the four panic scenarios at a concrete
input. -/
theorem claim_C10_witness :
    genOp ctxW [] [] () "/n" "GET" (some opNoId) = .died ∧
    get_response_type ctxW "nr_op" () opNoResp = .died ∧
    genOp ctxW [] [] () "/eb" "POST" (some opEmptyBody) = .died ∧
    get_fn_params ctxN () opSingle [] = .died := by
  refine ⟨?_, ?_, ?_, ?_⟩
  · exact (claim_C10_unwrap_panics ctxW).1 [] [] () "/n" "GET" opNoId rfl
  · exact (claim_C10_unwrap_panics ctxW).2.1 "nr_op" () opNoResp rfl
  · exact (claim_C10_unwrap_panics ctxW).2.2.1 [] [] () "/eb" "POST" opEmptyBody "eb_op" "eb"
      "/**\n* This function performs a `POST` to the `/eb` endpoint.\n*/" () ⟨[]⟩
      rfl rfl (by decide) rfl rfl rfl
  · exact (claim_C10_unwrap_panics ctxN).2.2.2 () opSingle []
      (.query ⟨"q", none, true⟩ false .form none) rfl rfl
